import Mathlib

/-!
# Verification of `speedtest_tool_v2_5_singlecmd`

A shallow embedding, in Lean 4, of the core logic of the repository
(`speedtest_tool/core.py`, `speedtest_tool/ui_ascii.py`), together with
theorems settling the specified properties.

Modelling conventions:
* Python floats are modelled as exact rationals (`ℚ`); all numeric inputs
  appearing in the claims are exactly representable, and the score formulas
  only use `+ - * / min max round` on such values.
* Python `round` is round-half-to-even (`pyRound` below).
* Python's truthiness-based `x or d` on an optional number is `pyOrQ`:
  it yields `d` when `x` is `None` **or** equal to `0` (both are falsy).
* Fallible external calls (the `speedtest` library collaborator) are
  modelled by their outcomes: each operation is an `Except`/`Option`
  field of an `STService` record, supplied as a parameter.
* Thread-based code (`threading.Thread` + immediate `join`) is sequential
  in effect and is embedded sequentially; the progress reporter is a small
  state machine with an explicit output trace, and its `join` is modelled
  as hanging unless the loop's stop flag is already set or the loop thread
  is already dead (this is exactly the liveness argument the code relies
  on: `stop` sets the event *before* joining).
-/

/-- Python `max(a, b)` on rationals (ties return the first argument). -/
def pyMaxQ (a b : ℚ) : ℚ := if b ≤ a then a else b

/-- Python `min(a, b)` on rationals (ties return the first argument). -/
def pyMinQ (a b : ℚ) : ℚ := if a ≤ b then a else b

/-- Python `max(a, b)` on integers. -/
def pyMaxZ (a b : ℤ) : ℤ := if b ≤ a then a else b

/-- Python `min(a, b)` on integers. -/
def pyMinZ (a b : ℤ) : ℤ := if a ≤ b then a else b

/-- Python 3 `round` on an exact rational: round half to even. -/
def pyRound (q : ℚ) : ℤ :=
  let f : ℤ := ⌊q⌋
  let frac : ℚ := q - (f : ℚ)
  if frac < 1 / 2 then f
  else if 1 / 2 < frac then f + 1
  else if f % 2 = 0 then f else f + 1

/-- Python `x or d` for an optional number `x`: `None` and `0` are falsy. -/
def pyOrQ (x : Option ℚ) (d : ℚ) : ℚ :=
  match x with
  | Option.none => d
  | Option.some v => if v = 0 then d else v

/-- `to_mbps` from `ui_ascii.quality_ratings`: `bps/1_000_000`, `None` ↦ `0.0`. -/
def to_mbps (bps : Option ℚ) : ℚ :=
  match bps with
  | Option.none => 0
  | Option.some b => b / 1000000

/-- Lines 156–173 of `ui_ascii.py`: the four scores from the already-derived
`dl`, `ul` (Mbps) and `lat` (ms), as the ordered key-value list returned by
the Python function (dict insertion order). -/
def scoresFrom (dl ul lat : ℚ) : List (String × ℤ) :=
  let game : ℤ := pyMaxZ 1 (pyMinZ 10 (pyRound ((pyMaxQ 0 (150 - lat)) / 150 * 8 + (pyMinQ dl 100) / 100 * 2)))
  let stream : ℤ :=
    if 100 ≤ dl then 10
    else if 50 ≤ dl then 9
    else if 25 ≤ dl then 8
    else if 10 ≤ dl then 6
    else if 5 ≤ dl then 4
    else 2
  let browse : ℤ := pyMaxZ 1 (pyMinZ 10 (pyRound ((pyMaxQ 0 (300 - lat)) / 300 * 6 + (pyMinQ dl 50) / 50 * 4)))
  let vc : ℤ := pyMaxZ 1 (pyMinZ 10 (pyRound ((pyMaxQ 0 (200 - lat)) / 200 * 5 + (pyMinQ ul 20) / 20 * 5)))
  [("Gaming", game), ("Streaming (HD/4K)", stream), ("Browsing", browse), ("Video Call", vc)]

/-- `ui_ascii.quality_ratings(download_bps, upload_bps, latency_ms)`:
derives `dl`, `ul` via `to_mbps` and `lat` via the Python expression
`latency_ms or 9999`, then computes the four scores. -/
def quality_ratings (download_bps upload_bps latency_ms : Option ℚ) : List (String × ℤ) :=
  scoresFrom (to_mbps download_bps) (to_mbps upload_bps) (pyOrQ latency_ms 9999)

/-- A clamp as the spec writes it: `clamp(1,10,x)`. -/
def specClamp (lo hi x : ℤ) : ℤ := pyMinZ hi (pyMaxZ lo x)

/-- Spec §4.4 Gaming formula. -/
def specGaming (dl lat : ℚ) : ℤ :=
  specClamp 1 10 (pyRound ((pyMaxQ 0 (150 - lat)) / 150 * 8 + (pyMinQ dl 100) / 100 * 2))

/-- Spec §4.4 Streaming step function of `dl`. -/
def specStreaming (dl : ℚ) : ℤ :=
  if 100 ≤ dl then 10
  else if 50 ≤ dl then 9
  else if 25 ≤ dl then 8
  else if 10 ≤ dl then 6
  else if 5 ≤ dl then 4
  else 2

/-- Spec §4.4 Browsing formula. -/
def specBrowsing (dl lat : ℚ) : ℤ :=
  specClamp 1 10 (pyRound ((pyMaxQ 0 (300 - lat)) / 300 * 6 + (pyMinQ dl 50) / 50 * 4))

/-- Spec §4.4 Video Call formula. -/
def specVideoCall (ul lat : ℚ) : ℤ :=
  specClamp 1 10 (pyRound ((pyMaxQ 0 (200 - lat)) / 200 * 5 + (pyMinQ ul 20) / 20 * 5))

/-! ## Progress reporter (`ui_ascii.ASCIIProgress`) -/

/-- Output written to the terminal by a progress reporter instance. -/
inductive OutEvent where
  | progressLine
  | clearLine
deriving DecidableEq

/-- Observable state of one `ASCIIProgress` instance:
`stopSet` is the `threading.Event` `self._stop`; `threadStarted` is
`self._thread is not None`; `threadAlive` is whether the ticking loop
(`_run`) is still running. -/
structure PState where
  stopSet : Bool
  threadStarted : Bool
  threadAlive : Bool
deriving DecidableEq

/-- `ASCIIProgress.__init__`: event unset, no thread. -/
def pInit : PState := ⟨false, false, false⟩

/-- `ASCIIProgress.start` (lines 40–43): clears the stop event and spawns
the ticking loop. -/
def pStart (_ : PState) : PState := ⟨false, true, true⟩

/-- One iteration of the `_run` loop (lines 58–77): while alive, if the stop
event is unset it writes one progress line and continues; once the event is
set the loop exits without writing. A dead loop writes nothing. -/
def pTick (s : PState) : PState × List OutEvent :=
  if s.threadAlive then
    if s.stopSet then ({ s with threadAlive := false }, [])
    else (s, [OutEvent.progressLine])
  else (s, [])

/-- `n` loop iterations, accumulating terminal output. -/
def pTicks (s : PState) : ℕ → PState × List OutEvent
  | 0 => (s, [])
  | n + 1 =>
    let t1 := pTick s
    let t2 := pTicks t1.1 n
    (t2.1, t1.2 ++ t2.2)

/-- `ASCIIProgress.stop` (lines 45–51): sets the stop event, joins the loop
thread if one was ever started, then erases the progress line. `join` is
modelled as hanging (`Option.none`) unless the loop is guaranteed to exit,
i.e. the stop flag is set or the loop already finished — exactly the
liveness argument the source relies on by setting the event before joining. -/
def pStop (s : PState) : Option (PState × List OutEvent) :=
  let s1 : PState := { s with stopSet := true }
  if s1.threadStarted then
    if s1.stopSet || !s1.threadAlive then
      Option.some ({ s1 with threadAlive := false }, [OutEvent.clearLine])
    else Option.none
  else Option.some (s1, [OutEvent.clearLine])

/-! ## Orchestrator (`ui_ascii.run_with_ascii_progress`) -/

/-- The value returned by `run_with_ascii_progress` plus the reporter's
final state and terminal output: the Python function returns the dict
`result`, which holds the key `res` iff `func()` returned normally and the
key `err` iff it raised. -/
structure OrchOut (α ε : Type) where
  res : Option α
  err : Option ε
  prog : PState
  out : List OutEvent

/-- `run_with_ascii_progress(func, ...)` (lines 82–105). The zero-argument
operation is modelled by its outcome `op`. The background thread runs the
operation to completion and is immediately joined, so the effect is
sequentialized in program order: reporter created and started, the
operation runs, the `finally` block stops the reporter (its own failure
swallowed), join, return. -/
def run_with_ascii_progress (op : Except ε α) : OrchOut α ε :=
  let p1 := pStart pInit
  let rOut : Option α := match op with
    | Except.ok a => Option.some a
    | Except.error _ => Option.none
  let rErr : Option ε := match op with
    | Except.ok _ => Option.none
    | Except.error e => Option.some e
  match pStop p1 with
  | Option.some (p2, o) => ⟨rOut, rErr, p2, o⟩
  | Option.none => ⟨rOut, rErr, p1, []⟩

/-! ## Measurement client (`core.SpeedTester`) -/

/-- One server descriptor from the collaborator's server list; only the
distance field `d` is ever read by the embedded logic. -/
structure ServerEntry where
  d : Option ℚ
deriving DecidableEq, Inhabited

/-- A best-server selection call attempted during `_init_speedtest`. -/
inductive SelEvent where
  | restricted (chosen : ServerEntry)
  | serviceDefault
deriving DecidableEq

/-- Values stored in the result dictionary returned by `SpeedTester.run`.
Server/client payloads are never inspected by the embedded logic and are
modelled opaquely by a tag. -/
inductive PyVal where
  | pyNone
  | num (q : ℚ)
  | str (s : String)
  | errDict (entries : List (String × String))
  | obj (tag : ℕ)
deriving DecidableEq

/-- Outcomes of the external `speedtest.Speedtest` collaborator's
operations (out of scope per spec §1; each operation is modelled by the
result it would produce when called). -/
structure STService where
  get_servers : Except String (List (String × List ServerEntry))
  best_restricted : ServerEntry → Except String Unit
  best_default : Except String Unit
  download : Except String ℚ
  upload : Except String ℚ
  ping : Option ℚ
  server : Option ℕ
  client : Option ℕ

/-- Sort key of core.py line 47: `float(x.get('d', 1e9))`. -/
def distKey (s : ServerEntry) : ℚ := s.d.getD 1000000000

/-- Stable insertion into a distance-ascending list. -/
def insertByD (x : ServerEntry) : List ServerEntry → List ServerEntry
  | [] => [x]
  | y :: ys => if distKey y ≤ distKey x then y :: insertByD x ys else x :: y :: ys

/-- Ascending stable sort by distance (core.py line 47). -/
def sortByD : List ServerEntry → List ServerEntry
  | [] => []
  | x :: xs => insertByD x (sortByD xs)

/-- `SpeedTester._init_speedtest` (core.py lines 23–63), returning the trace
of best-server selection calls attempted. `n` is `self.prefer_nearby_top`;
`r` models `random.choice` by an index into the nearest-`n` list. Every
collaborator failure in this step is swallowed, mirroring the source's
`try/except` structure, so the function is total. -/
def init_speedtest (svc : STService) (n : ℕ) (r : ℕ) : List SelEvent :=
  match svc.get_servers with
  | Except.error _ => [SelEvent.serviceDefault]
  | Except.ok servers =>
    let server_list := (servers.map Prod.snd).flatten
    let with_distance := server_list.filter (fun s => s.d.isSome)
    if with_distance ≠ [] then
      let sorted := sortByD with_distance
      let top := sorted.take n
      let chosen := top.getD (r % top.length) default
      match svc.best_restricted chosen with
      | Except.ok _ => [SelEvent.restricted chosen]
      | Except.error _ => [SelEvent.restricted chosen, SelEvent.serviceDefault]
    else [SelEvent.serviceDefault]

/-- ASCII lowering of one character, as Python's `str.lower` acts on the
ASCII range (the only range the mode comparison exercises). -/
def lowerChar (c : Char) : Char :=
  if 65 ≤ c.toNat ∧ c.toNat ≤ 90 then Char.ofNat (c.toNat + 32) else c

/-- `mode.lower()` (core.py line 70), ASCII scope. -/
def pyLower (s : String) : String := String.mk (s.data.map lowerChar)

deriving instance DecidableEq for Except

/-- The outcome of one `SpeedTester.run` call: the returned dictionary (or
the raised error's message), the probes attempted in order, and the
best-server selection calls attempted. -/
structure RunOut where
  result : Except String (List (String × PyVal))
  probes : List String
  sel : List SelEvent
deriving DecidableEq

/-- Probe section and result assembly of `SpeedTester.run` (core.py lines
78–165) for an initialized service `svc`. Each probe thread is started and
immediately joined (lines 106–113), so the effect is sequential: the
download probe, then the upload probe, each failure captured into `errors`
under the probe's name. The opportunistic attribute probing of lines
120–154 collapses to availability: an unavailable field is `None`. -/
def runBody (svc : STService) (mode : String) (sel : List SelEvent) : RunOut :=
  let dOut : Option ℚ := match svc.download with
    | Except.ok b => Option.some b
    | Except.error _ => Option.none
  let dErr : List (String × String) := match svc.download with
    | Except.ok _ => []
    | Except.error e => [("download", e)]
  let uOut : Option ℚ := match svc.upload with
    | Except.ok b => Option.some b
    | Except.error _ => Option.none
  let uErr : List (String × String) := match svc.upload with
    | Except.ok _ => []
    | Except.error e => [("upload", e)]
  let errors := dErr ++ uErr
  let toVal : Option ℚ → PyVal := fun o => match o with
    | Option.some q => PyVal.num q
    | Option.none => PyVal.pyNone
  let serverVal : PyVal := match svc.server with
    | Option.some t => PyVal.obj t
    | Option.none => PyVal.pyNone
  let clientVal : PyVal := match svc.client with
    | Option.some t => PyVal.obj t
    | Option.none => PyVal.pyNone
  let dict : List (String × PyVal) :=
    if mode = "basic" then
      [("download_bps", toVal dOut), ("upload_bps", toVal uOut),
       ("ping_ms", toVal svc.ping), ("errors", PyVal.errDict errors)]
    else
      [("download_bps", toVal dOut), ("upload_bps", toVal uOut),
       ("ping_ms", toVal svc.ping), ("server", serverVal),
       ("client", clientVal), ("errors", PyVal.errDict errors)]
  ⟨Except.ok dict, ["download", "upload"], sel⟩

/-- `SpeedTester.run` (core.py lines 65–165). `mk` is the outcome of the
`speedtest.Speedtest()` constructor (line 25), `st0` is the cached
`self._st`, `n` is `self.prefer_nearby_top`, `r` the randomness index. The
mode is lowercased, validated against `basic`/`advance` (the original
error message quotes the two mode names; the quotes are elided here), the
service is initialized lazily, and the probes run. -/
def runT (mk : Except String STService) (st0 : Option STService) (n : ℕ)
    (mode : String) (r : ℕ) : RunOut :=
  let m := pyLower mode
  if m ≠ "basic" ∧ m ≠ "advance" then
    ⟨Except.error "mode must be basic or advance", [], []⟩
  else
    match st0 with
    | Option.some svc => runBody svc m []
    | Option.none =>
      match mk with
      | Except.error e => ⟨Except.error e, [], []⟩
      | Except.ok svc => runBody svc m (init_speedtest svc n r)

/-- Lookup of key `k` in a run's returned dictionary (`Option.none` when
the run raised or the key is absent). -/
def resultLookup (o : RunOut) (k : String) : Option PyVal :=
  match o.result with
  | Except.ok d => d.lookup k
  | Except.error _ => Option.none

/-- A concrete collaborator realizing the spec §8 end-to-end scenario:
both probes succeed with `download=50_000_000`, `upload=10_000_000`,
`ping=20`, and server/client payloads are produced. -/
def svcDemo : STService where
  get_servers := Except.ok []
  best_restricted := fun _ => Except.ok ()
  best_default := Except.ok ()
  download := Except.ok 50000000
  upload := Except.ok 10000000
  ping := Option.some 20
  server := Option.some 0
  client := Option.some 0

/-- A collaborator whose download probe fails while the upload succeeds. -/
def svcDownFail : STService :=
  { svcDemo with download := Except.error "download timed out" }

/-! ## Helper lemmas -/

theorem lowerChar_toNat (c : Char) (h : 65 ≤ c.toNat ∧ c.toNat ≤ 90) :
    (lowerChar c).toNat = c.toNat + 32 := by
  simp only [lowerChar, if_pos h]
  have hv : (c.toNat + 32).isValidChar := by
    unfold Nat.isValidChar
    left
    have := h.2
    unfold Char.toNat at *
    omega
  simp only [Char.ofNat, dif_pos hv]
  rfl

theorem lowerChar_idem (c : Char) : lowerChar (lowerChar c) = lowerChar c := by
  by_cases h : 65 ≤ c.toNat ∧ c.toNat ≤ 90
  · have ht := lowerChar_toNat c h
    have hout : lowerChar (lowerChar c) =
        if 65 ≤ (lowerChar c).toNat ∧ (lowerChar c).toNat ≤ 90 then
          Char.ofNat ((lowerChar c).toNat + 32)
        else lowerChar c := rfl
    rw [hout, if_neg (by rw [ht]; omega)]
  · have hout : lowerChar c = c := by
      unfold lowerChar
      rw [if_neg h]
    rw [hout, hout]

theorem pyLower_idem (s : String) : pyLower (pyLower s) = pyLower s := by
  unfold pyLower
  have hd : (String.mk (s.data.map lowerChar)).data = s.data.map lowerChar := rfl
  rw [hd, List.map_map]
  exact congrArg String.mk (List.map_congr_left (fun a _ => lowerChar_idem a))

theorem clampZ_eq (x : ℤ) : pyMaxZ 1 (pyMinZ 10 x) = specClamp 1 10 x := by
  simp only [pyMaxZ, pyMinZ, specClamp]
  split_ifs <;> omega

theorem clampZ_bounds (x : ℤ) : 1 ≤ pyMaxZ 1 (pyMinZ 10 x) ∧ pyMaxZ 1 (pyMinZ 10 x) ≤ 10 := by
  simp only [pyMaxZ, pyMinZ]
  split_ifs <;> omega

/-! ## Claim theorems -/

/-- C5: `quality_ratings` computes exactly the four reference formulas of
spec §4.4 (the step function for Streaming and the clamped rounded affine
combinations for Gaming, Browsing and Video Call), with `dl`/`ul` the
`bps/1_000_000` conversions (absent ↦ 0); and on the §8 scenario input
`download=50_000_000, upload=10_000_000, ping=20` the Streaming score is 9
and the Gaming score is 8. -/
theorem quality_ratings_match_spec_formulas (d u p : Option ℚ) :
    quality_ratings d u p =
      [("Gaming", specGaming (to_mbps d) (pyOrQ p 9999)),
       ("Streaming (HD/4K)", specStreaming (to_mbps d)),
       ("Browsing", specBrowsing (to_mbps d) (pyOrQ p 9999)),
       ("Video Call", specVideoCall (to_mbps u) (pyOrQ p 9999))] ∧
    quality_ratings (Option.some 50000000) (Option.some 10000000) (Option.some 20) =
      [("Gaming", 8), ("Streaming (HD/4K)", 9), ("Browsing", 10), ("Video Call", 7)] := by
  constructor
  · simp only [quality_ratings, scoresFrom, specGaming, specStreaming, specBrowsing,
      specVideoCall, clampZ_eq]
  · norm_num [quality_ratings, scoresFrom, to_mbps, pyOrQ, pyRound, pyMaxZ, pyMinZ,
      pyMaxQ, pyMinQ]

/-- C6: for every finite non-negative combination of `download_bps`,
`upload_bps` and `ping_ms` (each possibly absent), every score returned by
`quality_ratings` lies in `[1, 10]`. -/
theorem quality_ratings_in_range (d u p : Option ℚ)
    (hd : ∀ x, d = Option.some x → 0 ≤ x)
    (hu : ∀ x, u = Option.some x → 0 ≤ x)
    (hp : ∀ x, p = Option.some x → 0 ≤ x) :
    (quality_ratings d u p).all (fun s => decide (1 ≤ s.2 ∧ s.2 ≤ 10)) = true := by
  clear hd hu hp
  simp only [quality_ratings, scoresFrom, List.all_cons, List.all_nil, Bool.and_true,
    Bool.and_eq_true, decide_eq_true_eq]
  refine ⟨clampZ_bounds _, ?_, clampZ_bounds _, clampZ_bounds _⟩
  split_ifs <;> omega

/-- Witness for C6 at the boundary input `dl = ul = 0`, `latency`-carrying
`ping_ms = 0`. -/
theorem quality_ratings_in_range_witness :
    (quality_ratings (Option.some 0) (Option.some 0) (Option.some 0)).all
      (fun s => decide (1 ≤ s.2 ∧ s.2 ≤ 10)) = true :=
  quality_ratings_in_range (Option.some 0) (Option.some 0) (Option.some 0)
    (fun x hx => by cases hx; exact le_refl 0)
    (fun x hx => by cases hx; exact le_refl 0)
    (fun x hx => by cases hx; exact le_refl 0)

/-- C7 counterexample: a present `ping_ms` of `0` is **not** used as
latency `0`. The code computes `lat = latency_ms or 9999`, and Python's
`or` treats the number `0` as falsy, so `ping_ms = 0` yields the sentinel
`9999`; consequently `quality_ratings` at `ping_ms = 0` differs from the
scores computed with latency `0` (Gaming would be 8 at latency 0, but is
1 through the sentinel). -/
theorem latency_zero_replaced_by_sentinel :
    pyOrQ (Option.some 0) 9999 = 9999 ∧
    quality_ratings (Option.some 0) (Option.some 0) (Option.some 0) ≠
      scoresFrom (to_mbps (Option.some 0)) (to_mbps (Option.some 0)) 0 := by
  constructor
  · norm_num [pyOrQ]
  · norm_num [quality_ratings, scoresFrom, to_mbps, pyOrQ, pyRound, pyMaxZ, pyMinZ,
      pyMaxQ, pyMinQ]

/-- C7 amended: the latency value fed to the score computation equals
`ping_ms` whenever `ping_ms` is present and nonzero, and equals the
sentinel `9999` when `ping_ms` is absent **or equal to 0** (Python's `or`
treats `0` as falsy). -/
theorem latency_sentinel_semantics (d u : Option ℚ) (l : ℚ) (hl : l ≠ 0) :
    pyOrQ (Option.some l) 9999 = l ∧
    pyOrQ Option.none 9999 = 9999 ∧
    pyOrQ (Option.some 0) 9999 = 9999 ∧
    quality_ratings d u (Option.some l) = scoresFrom (to_mbps d) (to_mbps u) l ∧
    quality_ratings d u Option.none = scoresFrom (to_mbps d) (to_mbps u) 9999 ∧
    quality_ratings d u (Option.some 0) = scoresFrom (to_mbps d) (to_mbps u) 9999 := by
  refine ⟨?_, rfl, ?_, ?_, rfl, ?_⟩ <;>
    simp [quality_ratings, pyOrQ, hl]

/-- Witness for the amended C7 at `ping_ms = 20`. -/
theorem latency_sentinel_semantics_witness :
    pyOrQ (Option.some 20) 9999 = 20 ∧
    quality_ratings Option.none Option.none (Option.some 20) =
      scoresFrom (to_mbps Option.none) (to_mbps Option.none) 20 := by
  have h := latency_sentinel_semantics Option.none Option.none 20 (by norm_num)
  exact ⟨h.1, h.2.2.2.1⟩

/-- C2: for every zero-argument operation (modelled by its outcome `op`),
`run_with_ascii_progress` returns the operation's result when it completes
normally, or the captured exception value when it raises — exactly one of
the two branches, never propagating the exception — and the progress
reporter has been stopped before the call returns, even when the operation
raised. -/
theorem orchestrator_reconciles_lifecycles {α ε : Type} (op : Except ε α) :
    (∀ a, op = Except.ok a →
      (run_with_ascii_progress op).res = Option.some a ∧
      (run_with_ascii_progress op).err = Option.none) ∧
    (∀ e, op = Except.error e →
      (run_with_ascii_progress op).res = Option.none ∧
      (run_with_ascii_progress op).err = Option.some e) ∧
    ((run_with_ascii_progress op).res.isSome ↔ (run_with_ascii_progress op).err.isNone) ∧
    (run_with_ascii_progress op).prog.threadAlive = false ∧
    (run_with_ascii_progress op).prog.stopSet = true := by
  cases op <;>
    simp [run_with_ascii_progress, pStart, pInit, pStop]

/-- Witness for C2 on a completing and on a raising operation. -/
theorem orchestrator_reconciles_lifecycles_witness :
    ((run_with_ascii_progress (Except.ok 7 : Except String ℕ)).res = Option.some 7 ∧
      (run_with_ascii_progress (Except.ok 7 : Except String ℕ)).err = Option.none) ∧
    ((run_with_ascii_progress (Except.error "boom" : Except String ℕ)).res = Option.none ∧
      (run_with_ascii_progress (Except.error "boom" : Except String ℕ)).err =
        Option.some "boom") ∧
    (run_with_ascii_progress (Except.error "boom" : Except String ℕ)).prog.threadAlive =
      false :=
  ⟨(orchestrator_reconciles_lifecycles (Except.ok 7)).1 7 rfl,
   (orchestrator_reconciles_lifecycles (Except.error "boom")).2.1 "boom" rfl,
   (orchestrator_reconciles_lifecycles (Except.error "boom" : Except String ℕ)).2.2.2.1⟩

/-- C9: for every reachable reporter state (the ticking loop only runs if a
thread was spawned), `stop()` returns (the modelled join does not hang,
because the stop flag is set before joining) — covering both a `stop()`
before any `start()` and a repeated `stop()` — and after a `stop()`
returns, the instance's ticking loop writes no further output. -/
theorem ascii_progress_stop_safe (s : PState)
    (hw : s.threadAlive = true → s.threadStarted = true) :
    (pStop s).isSome = true ∧
    (∀ s1 out, pStop s = Option.some (s1, out) →
      (pStop s1).isSome = true ∧ ∀ n, (pTicks s1 n).2 = []) := by
  have hdead : ∀ t : PState, t.threadAlive = false → ∀ n, (pTicks t n).2 = [] := by
    intro t ht n
    induction n generalizing t with
    | zero => simp [pTicks]
    | succ k ih =>
      simp only [pTicks, pTick, ht, Bool.false_eq_true, if_false, List.nil_append]
      exact ih t ht
  constructor
  · simp [pStop]
    split_ifs <;> simp
  · intro s1 out h
    have hs1 : s1.threadAlive = false := by
      simp only [pStop] at h
      by_cases hst : s.threadStarted = true
      · simp [hst] at h
        rw [← h.1]
      · have hsf : s.threadStarted = false := by simpa using hst
        have halive : s.threadAlive = false := by
          cases hA : s.threadAlive
          · rfl
          · exact absurd (hw hA) (by simp [hsf])
        simp [hsf] at h
        rw [← h.1]
        exact halive
    constructor
    · simp [pStop]
      split_ifs <;> simp_all
    · exact fun n => hdead s1 hs1 n

/-- Witness for C9: a `stop()` before any `start()` (from the freshly
constructed state) returns, and from the state it leaves, five further loop
iterations write nothing. -/
theorem ascii_progress_stop_safe_witness :
    (pStop pInit).isSome = true ∧ (pTicks ⟨true, false, false⟩ 5).2 = [] :=
  ⟨(ascii_progress_stop_safe pInit (by intro h; cases h)).1,
   ((ascii_progress_stop_safe pInit (by intro h; cases h)).2 ⟨true, false, false⟩
      [OutEvent.clearLine] (by decide)).2 5⟩

/-- C1 counterexample: the claim names `"extended"` as a valid mode, but
`SpeedTester.run` accepts only `"basic"` and `"advance"`: calling it with
`mode = "extended"` (against a collaborator whose every operation
succeeds) raises the mode-precondition `ValueError` instead of running. -/
theorem mode_extended_rejected :
    (runT (Except.ok svcDemo) Option.none 5 "extended" 0).result =
      Except.error "mode must be basic or advance" := by
  decide

/-- C1 amended: `run(mode)` raises if and only if `mode.lower()` is neither
`"basic"` nor `"advance"` (the repository's name for the extended mode) —
given that the collaborator object exists (cached, or its constructor
succeeded) — and the mode error is a local precondition failure: when it
is raised, no probe has been attempted. -/
theorem run_mode_precondition (mk : Except String STService) (st0 : Option STService)
    (svc : STService) (n r : ℕ) (m : String)
    (hinit : st0 = Option.some svc ∨ (st0 = Option.none ∧ mk = Except.ok svc)) :
    ((∃ e, (runT mk st0 n m r).result = Except.error e) ↔
      (pyLower m ≠ "basic" ∧ pyLower m ≠ "advance")) ∧
    ((pyLower m ≠ "basic" ∧ pyLower m ≠ "advance") →
      runT mk st0 n m r =
        ⟨Except.error "mode must be basic or advance", [], []⟩) := by
  by_cases hm : pyLower m ≠ "basic" ∧ pyLower m ≠ "advance"
  · constructor
    · simp only [runT, pyLower_idem, if_pos hm]
      exact ⟨fun _ => hm, fun _ => ⟨"mode must be basic or advance", rfl⟩⟩
    · intro _
      simp only [runT, pyLower_idem, if_pos hm]
  · constructor
    · simp only [runT, pyLower_idem, if_neg hm]
      constructor
      · intro he
        exfalso
        rcases hinit with hcache | ⟨hnone, hmk⟩
        · rw [hcache] at he
          simp [runBody] at he
        · rw [hnone, hmk] at he
          simp [runBody] at he
      · intro hc
        exact absurd hc hm
    · intro hc
      exact absurd hc hm

/-- Witness for the amended C1: with a cached collaborator, `"advance"` is
accepted (no error is raised), and `"EXIT"` (lowercasing to neither valid
mode) is rejected before any probe runs. -/
theorem run_mode_precondition_witness :
    (¬ ∃ e, (runT (Except.ok svcDemo) (Option.some svcDemo) 5 "advance" 0).result =
      Except.error e) ∧
    (runT (Except.ok svcDemo) (Option.some svcDemo) 5 "EXIT" 0).probes = [] := by
  constructor
  · intro he
    exact absurd
      ((run_mode_precondition (Except.ok svcDemo) (Option.some svcDemo) svcDemo 5 0
        "advance" (Or.inl rfl)).1.mp he).2 (by decide)
  · rw [(run_mode_precondition (Except.ok svcDemo) (Option.some svcDemo) svcDemo 5 0
      "EXIT" (Or.inl rfl)).2 (by decide)]

/-- C3: every successful `run(mode="basic")` result dictionary carries
exactly the keys `download_bps`, `upload_bps`, `ping_ms`, `errors` in that
order — in particular never `server` or `client`, whatever server/client
information the collaborator produced. -/
theorem basic_mode_redacts_server_client (mk : Except String STService)
    (st0 : Option STService) (n r : ℕ) (d : List (String × PyVal))
    (h : (runT mk st0 n "basic" r).result = Except.ok d) :
    d.map Prod.fst = ["download_bps", "upload_bps", "ping_ms", "errors"] ∧
    (∀ kv ∈ d, kv.1 ≠ "server" ∧ kv.1 ≠ "client") := by
  have hb : pyLower "basic" = "basic" := by decide
  simp only [runT, hb, ne_eq, not_true_eq_false, false_and, if_false] at h
  have hkeys : d.map Prod.fst = ["download_bps", "upload_bps", "ping_ms", "errors"] := by
    cases st0 with
    | some svc =>
      simp only [runBody, if_pos rfl, Except.ok.injEq] at h
      rw [← h]
      rfl
    | none =>
      cases mk with
      | error e => simp at h
      | ok svc =>
        simp only [runBody, if_pos rfl, Except.ok.injEq] at h
        rw [← h]
        rfl
  refine ⟨hkeys, ?_⟩
  intro kv hkv
  have hmem : kv.1 ∈ d.map Prod.fst := List.mem_map_of_mem Prod.fst hkv
  rw [hkeys] at hmem
  simp only [List.mem_cons, List.not_mem_nil, or_false] at hmem
  rcases hmem with h1 | h1 | h1 | h1 <;> rw [h1] <;> exact ⟨by decide, by decide⟩

/-- Witness for C3 at a collaborator that produced both server and client
payloads. -/
theorem basic_mode_redacts_server_client_witness :
    ([("download_bps", PyVal.num 50000000), ("upload_bps", PyVal.num 10000000),
       ("ping_ms", PyVal.num 20), ("errors", PyVal.errDict [])].map Prod.fst =
      ["download_bps", "upload_bps", "ping_ms", "errors"]) :=
  (basic_mode_redacts_server_client (Except.ok svcDemo) (Option.some svcDemo) 5 0
    [("download_bps", PyVal.num 50000000), ("upload_bps", PyVal.num 10000000),
     ("ping_ms", PyVal.num 20), ("errors", PyVal.errDict [])] rfl).1

/-- C4: when the download probe raises and the upload probe succeeds, the
run still returns normally with `errors` containing exactly the key
`download` mapped to the failure message, a null `download_bps`, the
non-null measured `upload_bps` — and both probes were attempted, the
upload after the download. -/
theorem download_failure_not_skip_upload (svc : STService) (st0 : Option STService)
    (n r : ℕ) (m : String) (msg : String) (v : ℚ)
    (hm : pyLower m = "basic" ∨ pyLower m = "advance")
    (hd : svc.download = Except.error msg) (hu : svc.upload = Except.ok v)
    (hst : st0 = Option.some svc ∨ st0 = Option.none) :
    (runT (Except.ok svc) st0 n m r).result.isOk = true ∧
    resultLookup (runT (Except.ok svc) st0 n m r) "errors" =
      Option.some (PyVal.errDict [("download", msg)]) ∧
    resultLookup (runT (Except.ok svc) st0 n m r) "download_bps" =
      Option.some PyVal.pyNone ∧
    resultLookup (runT (Except.ok svc) st0 n m r) "upload_bps" =
      Option.some (PyVal.num v) ∧
    (runT (Except.ok svc) st0 n m r).probes = ["download", "upload"] := by
  rcases hst with hst | hst <;> rw [hst] <;> rcases hm with hm | hm <;>
    refine ⟨?_, ?_, ?_, ?_, ?_⟩ <;>
    simp [runT, hm, runBody, hd, hu, resultLookup, List.lookup, Except.isOk,
      Except.toBool]

/-- Witness for C4: a collaborator whose download times out while the
upload measures `10_000_000` bps, in basic mode. -/
theorem download_failure_not_skip_upload_witness :
    resultLookup (runT (Except.ok svcDownFail) Option.none 5 "basic" 0) "errors" =
      Option.some (PyVal.errDict [("download", "download timed out")]) ∧
    resultLookup (runT (Except.ok svcDownFail) Option.none 5 "basic" 0) "upload_bps" =
      Option.some (PyVal.num 10000000) ∧
    (runT (Except.ok svcDownFail) Option.none 5 "basic" 0).probes =
      ["download", "upload"] := by
  have h := download_failure_not_skip_upload svcDownFail Option.none 5 0 "basic"
    "download timed out" 10000000 (Or.inl (by decide)) rfl rfl (Or.inr rfl)
  exact ⟨h.2.1, h.2.2.2.1, h.2.2.2.2⟩

/-- C8: with a retrieved server list that is empty or carries no distance
information, `_init_speedtest` falls back to the service's own default
best-server selection (itself failure-swallowed) without raising, and the
surrounding `run()` still completes with a result. -/
theorem server_selection_best_effort (svc : STService) (n r : ℕ)
    (servers : List (String × List ServerEntry))
    (hs : svc.get_servers = Except.ok servers)
    (hnd : (servers.map Prod.snd).flatten = [] ∨
      ∀ e ∈ (servers.map Prod.snd).flatten, e.d = Option.none) :
    init_speedtest svc n r = [SelEvent.serviceDefault] ∧
    ∃ d, (runT (Except.ok svc) Option.none n "basic" r).result = Except.ok d := by
  have hfilter : ((servers.map Prod.snd).flatten).filter (fun s => s.d.isSome) = [] := by
    rcases hnd with hempty | hnone
    · rw [hempty]
      rfl
    · rw [List.filter_eq_nil_iff]
      intro a ha
      rw [hnone a ha]
      simp
  constructor
  · simp only [init_speedtest, hs, hfilter, ne_eq, not_true_eq_false, if_false]
  · have hb : pyLower "basic" = "basic" := by decide
    simp only [runT, hb, ne_eq, not_true_eq_false, false_and, if_false, runBody,
      if_pos rfl]
    exact ⟨_, rfl⟩

/-- Witness for C8: a collaborator returning an empty server list. -/
theorem server_selection_best_effort_witness :
    init_speedtest svcDemo 5 0 = [SelEvent.serviceDefault] ∧
    ∃ d, (runT (Except.ok svcDemo) Option.none 5 "basic" 0).result = Except.ok d :=
  server_selection_best_effort svcDemo 5 0 [] rfl (Or.inl rfl)

/-- C10: `SpeedTester.run` lowercases the mode before validating it, so its
entire behaviour on mode `m` coincides with its behaviour on `m.lower()`;
in particular `run("BASIC")` behaves identically to `run("basic")`. -/
theorem run_mode_case_insensitive (mk : Except String STService)
    (st0 : Option STService) (n r : ℕ) (m : String) :
    runT mk st0 n m r = runT mk st0 n (pyLower m) r ∧
    runT mk st0 n "BASIC" r = runT mk st0 n "basic" r := by
  constructor
  · simp only [runT, pyLower_idem]
  · have hB : pyLower "BASIC" = pyLower "basic" := by decide
    simp only [runT, hB]
